import Mathlib

/-!
Shallow embedding of `src/brpyople/cadastro_pessoas.py`.

Text is modelled as `List Char`.  Python exceptions (`ValueError`) are modelled
by `Except String`.  Python's `str.isdigit` on the relevant inputs is modelled
by `Char.isDigit` (ASCII decimal digits), matching the decimal-digit strings the
specification quantifies over.  Accented characters in the Python error
messages are transliterated to plain ASCII.
-/

/-- Embeds `EspeciesCadastroPessoas` (the two-valued enum of registries). -/
inductive EspeciesCadastroPessoas where
  | CNPJ : EspeciesCadastroPessoas
  | CPF : EspeciesCadastroPessoas
deriving DecidableEq, Repr

/-- The characters removed by the separator-stripping substitution: dot, slash, hyphen. -/
def isSeparador (c : Char) : Bool :=
  c = '.' || c = '/' || c = '-'

/-- Embeds the `re.sub` separator removal: the text with dots, slashes and hyphens removed. -/
def semSeparadores (texto : List Char) : List Char :=
  texto.filter (fun c => !isSeparador c)

/-- Embeds Python `str.isdigit`: true iff nonempty and every char is a digit. -/
def pyIsDigit (l : List Char) : Bool :=
  !l.isEmpty && l.all Char.isDigit

/-- Embeds `int(c)` for a single digit character. -/
def digitToNat (c : Char) : Nat :=
  c.toNat - 48

/-- Embeds `str(d)` for `d < 10` (a single digit appended by the algorithm). -/
def natToDigitChar (n : Nat) : Char :=
  Char.ofNat (48 + n)

/-- The dict `{CNPJ: 14, CPF: 11}` giving `quantidade_maxima_digitos`. -/
def quantidadeMaximaDigitos : EspeciesCadastroPessoas → Nat
  | .CNPJ => 14
  | .CPF => 11

/-- Embeds `range(10, 1, -1)`, the CPF weight sequence. -/
def pesosCpf : List Nat := [10, 9, 8, 7, 6, 5, 4, 3, 2]

/-- Embeds the CPF inner loop
`for char, multiplicador in zip(id[dv:], range(10,1,-1)): soma += int(char)*multiplicador`
(`zip` truncates at the shorter sequence). -/
def somaCpf : List Char → List Nat → Nat
  | _, [] => 0
  | [], _ :: _ => 0
  | c :: cs, m :: ms => digitToNat c * m + somaCpf cs ms

/-- One CPF pass: `resto = soma % 11`; digit `11 - resto` if `resto > 1` else `0`. -/
def digitoCpf (idv : List Char) (dv : Nat) : Nat :=
  let resto := somaCpf (idv.drop dv) pesosCpf % 11
  if resto > 1 then 11 - resto else 0

/-- Embeds `for dv in (0, 1): ... identificador_valido += str(...)` of the CPF branch. -/
def loopCpf (idv : List Char) : List Char :=
  let idv1 := idv ++ [natToDigitChar (digitoCpf idv 0)]
  idv1 ++ [natToDigitChar (digitoCpf idv1 1)]

/-- Embeds the CNPJ inner loop
`for c in id[::-1]: soma += int(c)*mult; mult = mult - 1 if mult > 2 else 9`,
as a recursion over the (already reversed) character list carrying `mult`. -/
def somaCnpj : List Char → Nat → Nat
  | [], _ => 0
  | c :: cs, mult => digitToNat c * mult + somaCnpj cs (if mult > 2 then mult - 1 else 9)

/-- One CNPJ pass: `resto = soma % 11`; digit `resto` unless `resto == 10`, then `0`. -/
def digitoCnpj (idv : List Char) : Nat :=
  let resto := somaCnpj idv.reverse 9 % 11
  if resto = 10 then 0 else resto

/-- Embeds `for _ in (1, 2): ... identificador_valido += str(...)` of the CNPJ branch. -/
def loopCnpj (idv : List Char) : List Char :=
  let idv1 := idv ++ [natToDigitChar (digitoCnpj idv)]
  idv1 ++ [natToDigitChar (digitoCnpj idv1)]

/-- The `ValueError` message of `gerar_digitos_verificadores` (ASCII transliteration). -/
def erroQuantidadeDigitos (texto : List Char) : String :=
  "O texto \"" ++ String.mk texto ++ "\" ou nao contem a quantidade esperada de digitos, ou contem pelo menos um caractere que nao e digito"

/-- Embeds the static method `Registro.gerar_digitos_verificadores`.
Returns the last two characters of the working sequence after the two passes;
raising `ValueError` is modelled by `Except.error`.  (The `KeyError` branch is
unreachable here because the enum is closed at the type level.) -/
def gerar_digitos_verificadores (texto : List Char)
    (cadastro_pessoas : EspeciesCadastroPessoas) : Except String (List Char) :=
  let texto_sem_separadores := semSeparadores texto
  let quantidade_maxima_digitos := quantidadeMaximaDigitos cadastro_pessoas
  if (texto_sem_separadores.length ≠ quantidade_maxima_digitos ∧
      texto_sem_separadores.length ≠ quantidade_maxima_digitos - 2) ∨
      pyIsDigit texto_sem_separadores = false then
    Except.error (erroQuantidadeDigitos texto)
  else
    let identificador_valido :=
      if texto_sem_separadores.length = quantidade_maxima_digitos then
        texto_sem_separadores.take (texto_sem_separadores.length - 2)
      else
        texto_sem_separadores
    let completo :=
      match cadastro_pessoas with
      | .CPF => loopCpf identificador_valido
      | .CNPJ => loopCnpj identificador_valido
    Except.ok (completo.drop (completo.length - 2))

/-- The tail of `gerar_digitos_verificadores` after validation and check-digit
stripping: run the two-pass loop of the chosen registry on the prefix and keep
the last two characters.  (Proof-structuring abbreviation for the code above.) -/
def gerarNucleo (idv : List Char) (cp : EspeciesCadastroPessoas) : List Char :=
  let completo :=
    match cp with
    | .CPF => loopCpf idv
    | .CNPJ => loopCnpj idv
  completo.drop (completo.length - 2)

/-- Embeds `REGEX_CPF_SEM_SEPARADORES.fullmatch`: exactly 11 digit characters. -/
def fullmatchCpfSemSeparadores (s : List Char) : Bool :=
  s.length = 11 && s.all Char.isDigit

/-- Embeds `REGEX_CPF_COM_SEPARADORES.fullmatch`: `ddd.ddd.ddd-dd`. -/
def fullmatchCpfComSeparadores : List Char → Bool
  | [a, b, c, p1, d, e, f, p2, g, h, i, hi, j, k] =>
    a.isDigit && b.isDigit && c.isDigit && (p1 = '.') &&
    d.isDigit && e.isDigit && f.isDigit && (p2 = '.') &&
    g.isDigit && h.isDigit && i.isDigit && (hi = '-') &&
    j.isDigit && k.isDigit
  | _ => false

/-- Embeds `REGEX_CNPJ_SEM_SEPARADORES.fullmatch`: exactly 14 digit characters. -/
def fullmatchCnpjSemSeparadores (s : List Char) : Bool :=
  s.length = 14 && s.all Char.isDigit

/-- Embeds `REGEX_CNPJ_COM_SEPARADORES.fullmatch`: `dd.ddd.ddd/dddd-dd`. -/
def fullmatchCnpjComSeparadores : List Char → Bool
  | [a, b, p1, c, d, e, p2, f, g, h, br, i, j, k, l, hi, m, n] =>
    a.isDigit && b.isDigit && (p1 = '.') &&
    c.isDigit && d.isDigit && e.isDigit && (p2 = '.') &&
    f.isDigit && g.isDigit && h.isDigit && (br = '/') &&
    i.isDigit && j.isDigit && k.isDigit && l.isDigit && (hi = '-') &&
    m.isDigit && n.isDigit
  | _ => false

/-- Embeds the attributes of a constructed `Registro` instance. -/
structure Registro where
  cadastro_pessoas : EspeciesCadastroPessoas
  digitos_identificador : List Char
  identificador_formatado : List Char
  identificador_valido : Bool
deriving DecidableEq, Repr

/-- The `ValueError` message of `Registro.__init__` (ASCII transliteration). -/
def erroPadraoIdentificador (identificador : List Char) : String :=
  "O identificador \"" ++ String.mk identificador ++ "\" nao segue o padrao de qualquer cadastro de pessoas"

/-- Embeds the CPF formatting
`'.'.join((d[:3], d[3:6], d[6:9])) + '-' + d[9:11]`. -/
def formatoCpf (d : List Char) : List Char :=
  d.take 3 ++ ['.'] ++ (d.drop 3).take 3 ++ ['.'] ++ (d.drop 6).take 3 ++
    ['-'] ++ (d.drop 9).take 2

/-- Embeds the CNPJ formatting
`'.'.join((d[:2], d[2:5], d[5:8])) + f'/\x7bd[8:12]\x7d-\x7bd[12:]\x7d'`. -/
def formatoCnpj (d : List Char) : List Char :=
  d.take 2 ++ ['.'] ++ (d.drop 2).take 3 ++ ['.'] ++ (d.drop 5).take 3 ++
    ['/'] ++ (d.drop 8).take 4 ++ ['-'] ++ d.drop 12

/-- Embeds `Registro.__init__`.  A raised `ValueError` is `Except.error`; field
assignments become the returned structure.  `self.identificador_valido` compares
the regenerated check digits with `d[-2:]`, i.e. `d.drop (d.length - 2)`. -/
def Registro.init (identificador : List Char) : Except String Registro :=
  let digitos := identificador.filter Char.isDigit
  if fullmatchCpfComSeparadores identificador || fullmatchCpfSemSeparadores identificador then
    match gerar_digitos_verificadores digitos .CPF with
    | Except.error e => Except.error e
    | Except.ok dv =>
      Except.ok ⟨.CPF, digitos, formatoCpf digitos,
        dv == digitos.drop (digitos.length - 2)⟩
  else if fullmatchCnpjComSeparadores identificador || fullmatchCnpjSemSeparadores identificador then
    match gerar_digitos_verificadores digitos .CNPJ with
    | Except.error e => Except.error e
    | Except.ok dv =>
      Except.ok ⟨.CNPJ, digitos, formatoCnpj digitos,
        dv == digitos.drop (digitos.length - 2)⟩
  else
    Except.error (erroPadraoIdentificador identificador)

/-- Decimal digits of `n`, least significant first (helper for `str(n)`). -/
def natDecimalRev (n : Nat) : List Char :=
  if h : n < 10 then
    [natToDigitChar n]
  else
    natToDigitChar (n % 10) :: natDecimalRev (n / 10)
decreasing_by exact Nat.div_lt_self (by omega) (by omega)

/-- Embeds `str(n)` for a natural number: most significant digit first. -/
def natDecimal (n : Nat) : List Char :=
  (natDecimalRev n).reverse

/-- Embeds `str(i)` for a Python `int`. -/
def intStr (i : Int) : List Char :=
  if i < 0 then '-' :: natDecimal i.natAbs else natDecimal i.toNat

/-- Embeds `str.zfill(4)`: left-pad with `'0'` to length 4. -/
def zfill4 (l : List Char) : List Char :=
  List.replicate (4 - l.length) '0' ++ l

/-- Embeds the factory `Registro.de_estabelecimento_com_raiz_cnpj`. -/
def Registro.de_estabelecimento_com_raiz_cnpj (raiz : List Char)
    (estabelecimento : Int) : Except String Registro :=
  if estabelecimento < 1 then
    Except.error "Nao existe estabelecimento menor que 1"
  else
    let texto_gerar_digitos := raiz ++ zfill4 (intStr estabelecimento)
    match gerar_digitos_verificadores texto_gerar_digitos .CNPJ with
    | Except.error e => Except.error e
    | Except.ok dv => Registro.init (texto_gerar_digitos ++ dv)

/-- The `ValueError` message of `extrair_raiz_cnpj` (ASCII transliteration). -/
def erroRaizCnpj : String :=
  "Somente registros vinculados ao CNPJ podem ter a raiz do seu identificador extraida"

/-- Embeds the method `Registro.extrair_raiz_cnpj`. -/
def Registro.extrair_raiz_cnpj (r : Registro) : Except String (List Char) :=
  if r.cadastro_pessoas ≠ .CNPJ then
    Except.error erroRaizCnpj
  else
    Except.ok (r.digitos_identificador.take 8)

/-!
### Specification models of the two check-digit algorithms

These definitions follow the specification's words (spec §4.2), independently of
the code above, so that the code's algorithm can be proved to refine them:
weights are given by position rather than by the code's stateful multiplier.
-/

/-- Spec model, natural-person sum: each digit times a descending weight
starting at 10 down to 2 (weight = 10 - position), products summed. -/
def specSomaCpf (ds : List Nat) : Nat :=
  (((ds.take 9).enum).map (fun p => p.2 * (10 - p.1))).sum

/-- Spec model, natural-person pass at offset `i`: remainder of the weighted sum
mod 11; check digit `11 - r` if `r > 1`, else `0`. -/
def specDigitoCpf (ds : List Nat) (i : Nat) : Nat :=
  let r := specSomaCpf (ds.drop i) % 11
  if r > 1 then 11 - r else 0

/-- Spec model, natural-person algorithm: two passes at offsets 0 and 1, the
first computed digit appended to the working sequence before the second pass;
the two digits returned in order. -/
def specCpfDigits (ds : List Nat) : List Nat :=
  let d1 := specDigitoCpf ds 0
  [d1, specDigitoCpf (ds ++ [d1]) 1]

/-- Spec model, legal-entity sum: traverse the sequence in reverse and apply
cyclic weights 9,8,...,2,9,8,... of period 8 (weight at reverse-position `i` is
`9 - i % 8`), summing the products. -/
def specSomaCnpj (ds : List Nat) : Nat :=
  ((ds.reverse.enum).map (fun p => p.2 * (9 - p.1 % 8))).sum

/-- Spec model, legal-entity pass: remainder of the weighted sum mod 11; check
digit `0` if the remainder is 10, else the remainder. -/
def specDigitoCnpj (ds : List Nat) : Nat :=
  let r := specSomaCnpj ds % 11
  if r = 10 then 0 else r

/-- Spec model, legal-entity algorithm: two passes, the first digit appended
before the second pass; the two digits returned in order. -/
def specCnpjDigits (ds : List Nat) : List Nat :=
  let d1 := specDigitoCnpj ds
  [d1, specDigitoCnpj (ds ++ [d1])]

/-!
### Character-level helper lemmas
-/

/-- A decimal digit character is not alphabetic. -/
theorem isAlpha_eq_false_of_isDigit {c : Char} (h : c.isDigit = true) :
    c.isAlpha = false := by
  simp [Char.isDigit, Char.isAlpha, Char.isUpper, Char.isLower,
    UInt32.le_def, BitVec.le_def] at *
  omega

/-- A decimal digit character is not one of the separators. -/
theorem isSeparador_eq_false_of_isDigit {c : Char} (h : c.isDigit = true) :
    isSeparador c = false := by
  rw [Bool.eq_false_iff]
  intro hsep
  simp only [isSeparador, Bool.or_eq_true, decide_eq_true_eq] at hsep
  rcases hsep with (rfl | rfl) | rfl <;> simp [Char.isDigit] at h

/-- `str(d)` of a value below 10 is a digit character. -/
theorem natToDigitChar_isDigit {n : Nat} (h : n < 10) :
    (natToDigitChar n).isDigit = true := by
  interval_cases n <;> decide

/-- `int` and `str` cancel on single digits. -/
theorem digitToNat_natToDigitChar {n : Nat} (h : n < 10) :
    digitToNat (natToDigitChar n) = n := by
  interval_cases n <;> decide

/-- Stripping separators from an all-digit text changes nothing. -/
theorem semSeparadores_eq_self {l : List Char} (h : l.all Char.isDigit = true) :
    semSeparadores l = l := by
  refine List.filter_eq_self.mpr (fun c hc => ?_)
  rw [List.all_eq_true] at h
  simp [isSeparador_eq_false_of_isDigit (h c hc)]

/-- Filtering digits from an all-digit text changes nothing. -/
theorem filter_isDigit_eq_self {l : List Char} (h : l.all Char.isDigit = true) :
    l.filter Char.isDigit = l := by
  refine List.filter_eq_self.mpr (fun c hc => ?_)
  exact List.all_eq_true.mp h c hc

/-- The CPF check digit of either pass is a single decimal digit. -/
theorem digitoCpf_lt_ten (idv : List Char) (dv : Nat) : digitoCpf idv dv < 10 := by
  unfold digitoCpf
  dsimp only
  split <;> omega

/-- The CNPJ check digit of either pass is a single decimal digit. -/
theorem digitoCnpj_lt_ten (idv : List Char) : digitoCnpj idv < 10 := by
  unfold digitoCnpj
  dsimp only
  split <;> omega

/-- Nonempty all-digit text satisfies the Python `isdigit` test. -/
theorem pyIsDigit_eq_true {l : List Char} (hne : l ≠ [])
    (h : l.all Char.isDigit = true) : pyIsDigit l = true := by
  cases l with
  | nil => exact absurd rfl hne
  | cons c t => simp only [pyIsDigit, List.isEmpty_cons, Bool.not_false, Bool.true_and, h]

/-!
### Bridges between the code's summation loops and the spec models
-/

/-- The code's CPF `zip` loop equals the spec's position-weighted sum on
sequences of exactly nine characters. -/
theorem somaCpf_eq_spec {cs : List Char} (h : cs.length = 9) :
    somaCpf cs pesosCpf = specSomaCpf (cs.map digitToNat) := by
  rcases cs with _ | ⟨a, _ | ⟨b, _ | ⟨c, _ | ⟨d, _ | ⟨e, _ | ⟨f, _ | ⟨g, _ | ⟨a8, _ | ⟨a9, _ | ⟨a10, t⟩⟩⟩⟩⟩⟩⟩⟩⟩⟩ <;>
    simp only [List.length_cons, List.length_nil] at h <;> try omega
  simp [somaCpf, pesosCpf, specSomaCpf, List.enum, List.enumFrom, List.take]

/-- The code's stateful CNPJ multiplier, started at reverse-position `k`,
equals the spec's cyclic weight `9 - k % 8` throughout the traversal. -/
theorem somaCnpj_enumFrom (cs : List Char) : ∀ k : Nat,
    somaCnpj cs (9 - k % 8) =
      ((List.enumFrom k (cs.map digitToNat)).map (fun p => p.2 * (9 - p.1 % 8))).sum := by
  induction cs with
  | nil => intro k; simp [somaCnpj]
  | cons c cs ih =>
    intro k
    have hm : (if 9 - k % 8 > 2 then 9 - k % 8 - 1 else 9) = 9 - (k + 1) % 8 := by
      split <;> omega
    simp only [somaCnpj, List.map_cons, List.enumFrom, List.sum_cons, hm, ih (k + 1)]

/-- The code's reversed CNPJ loop computes the spec's cyclically weighted sum. -/
theorem somaCnpj_eq_spec (idv : List Char) :
    somaCnpj idv.reverse 9 = specSomaCnpj (idv.map digitToNat) := by
  have h := somaCnpj_enumFrom idv.reverse 0
  norm_num at h
  rw [h]
  simp [specSomaCnpj, List.enum, List.map_reverse]

/-- The code's CPF pass digit equals the spec model's, for passes whose working
slice has exactly nine characters. -/
theorem digitoCpf_eq_spec {cs : List Char} (dv : Nat) (h : (cs.drop dv).length = 9) :
    digitoCpf cs dv = specDigitoCpf (cs.map digitToNat) dv := by
  unfold digitoCpf specDigitoCpf
  dsimp only
  rw [somaCpf_eq_spec h, ← List.map_drop]

/-- The code's CNPJ pass digit equals the spec model's. -/
theorem digitoCnpj_eq_spec (idv : List Char) :
    digitoCnpj idv = specDigitoCnpj (idv.map digitToNat) := by
  unfold digitoCnpj specDigitoCnpj
  dsimp only
  rw [somaCnpj_eq_spec]

/-- Unfolded form of the CPF two-pass loop. -/
theorem loopCpf_eq (idv : List Char) :
    loopCpf idv = idv ++ [natToDigitChar (digitoCpf idv 0),
      natToDigitChar (digitoCpf (idv ++ [natToDigitChar (digitoCpf idv 0)]) 1)] := by
  unfold loopCpf
  dsimp only
  rw [List.append_assoc]
  rfl

/-- Unfolded form of the CNPJ two-pass loop. -/
theorem loopCnpj_eq (idv : List Char) :
    loopCnpj idv = idv ++ [natToDigitChar (digitoCnpj idv),
      natToDigitChar (digitoCnpj (idv ++ [natToDigitChar (digitoCnpj idv)]))] := by
  unfold loopCnpj
  dsimp only
  rw [List.append_assoc]
  rfl

/-- Dropping all but the last two characters of `l ++ [a, b]` leaves `[a, b]`. -/
theorem drop_last_two (l : List Char) (a b : Char) :
    (l ++ [a, b]).drop ((l ++ [a, b]).length - 2) = [a, b] := by
  have h : (l ++ [a, b]).length - 2 = l.length := by simp
  rw [h, List.drop_left]

/-- C1: for every 9-character decimal-digit string, `gerar_digitos_verificadores`
on the natural-person registry (CPF) returns the two-character result of the
spec's two passes: pass `i` weights the working sequence from offset `i` with
descending weights 10..2, takes the sum mod 11, yields `11 - r` if `r > 1` else
`0`, appends it before the next pass, and the two digits are returned in order. -/
theorem cpf_two_pass_check_digits (texto : List Char) (hlen : texto.length = 9)
    (hdig : texto.all Char.isDigit = true) :
    gerar_digitos_verificadores texto .CPF =
      Except.ok ((specCpfDigits (texto.map digitToNat)).map natToDigitChar) := by
  have hs : semSeparadores texto = texto := semSeparadores_eq_self hdig
  have hne : texto ≠ [] := by
    intro e
    rw [e] at hlen
    simp at hlen
  have hpy : pyIsDigit texto = true := pyIsDigit_eq_true hne hdig
  have h0 : digitoCpf texto 0 = specDigitoCpf (texto.map digitToNat) 0 :=
    digitoCpf_eq_spec 0 (by simpa using hlen)
  have h1 : digitoCpf (texto ++ [natToDigitChar (digitoCpf texto 0)]) 1 =
      specDigitoCpf (texto.map digitToNat ++
        [specDigitoCpf (texto.map digitToNat) 0]) 1 := by
    have hb := @digitoCpf_eq_spec (texto ++ [natToDigitChar (digitoCpf texto 0)]) 1
      (by simp [hlen])
    rw [hb, List.map_append]
    simp only [List.map_cons, List.map_nil]
    rw [digitToNat_natToDigitChar (digitoCpf_lt_ten texto 0), h0]
  unfold gerar_digitos_verificadores
  rw [hs]
  simp only [quantidadeMaximaDigitos, hlen, hpy]
  norm_num
  rw [loopCpf_eq]
  rw [drop_last_two]
  rw [h1, h0]
  simp [specCpfDigits]

/-- C1 witness: the theorem applied to the concrete prefix `"070680938"`. -/
theorem cpf_two_pass_check_digits_witness :
    gerar_digitos_verificadores (String.toList "070680938") .CPF =
      Except.ok ((specCpfDigits ((String.toList "070680938").map digitToNat)).map
        natToDigitChar) :=
  cpf_two_pass_check_digits _ (by decide) (by decide)

/-- C2: for every 12-character decimal-digit string, `gerar_digitos_verificadores`
on the legal-entity registry (CNPJ) returns the two digits of the spec's two
passes: each pass traverses the working sequence in reverse with cyclic weights
9,8,...,2,9,8,... of period 8, takes the sum mod 11, yields `0` when the
remainder is 10 and the remainder otherwise, appends the digit before the next
pass, and returns pass-1 digit then pass-2 digit. -/
theorem cnpj_two_pass_check_digits (texto : List Char) (hlen : texto.length = 12)
    (hdig : texto.all Char.isDigit = true) :
    gerar_digitos_verificadores texto .CNPJ =
      Except.ok ((specCnpjDigits (texto.map digitToNat)).map natToDigitChar) := by
  have hs : semSeparadores texto = texto := semSeparadores_eq_self hdig
  have hne : texto ≠ [] := by
    intro e
    rw [e] at hlen
    simp at hlen
  have hpy : pyIsDigit texto = true := pyIsDigit_eq_true hne hdig
  have h0 : digitoCnpj texto = specDigitoCnpj (texto.map digitToNat) :=
    digitoCnpj_eq_spec texto
  have h1 : digitoCnpj (texto ++ [natToDigitChar (digitoCnpj texto)]) =
      specDigitoCnpj (texto.map digitToNat ++
        [specDigitoCnpj (texto.map digitToNat)]) := by
    have hb := digitoCnpj_eq_spec (texto ++ [natToDigitChar (digitoCnpj texto)])
    rw [hb, List.map_append]
    simp only [List.map_cons, List.map_nil]
    rw [digitToNat_natToDigitChar (digitoCnpj_lt_ten texto), h0]
  unfold gerar_digitos_verificadores
  rw [hs]
  simp only [quantidadeMaximaDigitos, hlen, hpy]
  norm_num
  rw [loopCnpj_eq]
  rw [drop_last_two]
  rw [h1, h0]
  simp [specCnpjDigits]

/-- C2 witness: the theorem applied to the concrete prefix `"000000000001"`. -/
theorem cnpj_two_pass_check_digits_witness :
    gerar_digitos_verificadores (String.toList "000000000001") .CNPJ =
      Except.ok ((specCnpjDigits ((String.toList "000000000001").map digitToNat)).map
        natToDigitChar) :=
  cnpj_two_pass_check_digits _ (by decide) (by decide)

/-- On input whose stripped text has exactly the full digit count, the code
strips the last two characters and runs the two-pass core on the prefix. -/
theorem gerar_eq_full (texto : List Char) (cp : EspeciesCadastroPessoas)
    (hall : (semSeparadores texto).all Char.isDigit = true)
    (hlen : (semSeparadores texto).length = quantidadeMaximaDigitos cp) :
    gerar_digitos_verificadores texto cp =
      Except.ok (gerarNucleo ((semSeparadores texto).take
        ((semSeparadores texto).length - 2)) cp) := by
  have hne : semSeparadores texto ≠ [] := by
    intro e
    rw [e] at hlen
    cases cp <;> simp [quantidadeMaximaDigitos] at hlen
  have hpy := pyIsDigit_eq_true hne hall
  have hcond : ¬(((semSeparadores texto).length ≠ quantidadeMaximaDigitos cp ∧
      (semSeparadores texto).length ≠ quantidadeMaximaDigitos cp - 2) ∨
      pyIsDigit (semSeparadores texto) = false) := by
    rw [hpy]
    simp [hlen]
  unfold gerar_digitos_verificadores gerarNucleo
  dsimp only
  rw [if_neg hcond, if_pos hlen]

/-- On input whose stripped text has exactly the prefix digit count (full count
minus two), the code runs the two-pass core on the stripped text itself. -/
theorem gerar_eq_prefixo (texto : List Char) (cp : EspeciesCadastroPessoas)
    (hall : (semSeparadores texto).all Char.isDigit = true)
    (hlen : (semSeparadores texto).length = quantidadeMaximaDigitos cp - 2) :
    gerar_digitos_verificadores texto cp =
      Except.ok (gerarNucleo (semSeparadores texto) cp) := by
  have hq : 2 < quantidadeMaximaDigitos cp := by cases cp <;> decide
  have hne : semSeparadores texto ≠ [] := by
    intro e
    rw [e] at hlen
    cases cp <;> simp [quantidadeMaximaDigitos] at hlen
  have hpy := pyIsDigit_eq_true hne hall
  have hcond : ¬(((semSeparadores texto).length ≠ quantidadeMaximaDigitos cp ∧
      (semSeparadores texto).length ≠ quantidadeMaximaDigitos cp - 2) ∨
      pyIsDigit (semSeparadores texto) = false) := by
    rw [hpy]
    simp [hlen]
  unfold gerar_digitos_verificadores gerarNucleo
  dsimp only
  rw [if_neg hcond, if_neg (by rw [hlen]; omega)]

/-- C5 counterexample: the full-length 11-digit identifier `"07068093868"` has
eleven digits (not the nine the claim requires for a natural-person prefix),
yet `gerar_digitos_verificadores` succeeds on it instead of failing. -/
theorem gerar_full_length_succeeds :
    (String.toList "07068093868").countP Char.isDigit = 11 ∧
    gerar_digitos_verificadores (String.toList "07068093868") .CPF =
      Except.ok (String.toList "68") := by
  constructor
  · decide
  · rfl

/-- C5 (amended): `gerar_digitos_verificadores` fails with a `ValueError`
whenever the stripped text's length is neither the registry's full digit count
(11 or 14) nor that count minus two; full-length input is accepted. -/
theorem gerar_wrong_length_error (texto : List Char) (cp : EspeciesCadastroPessoas)
    (h1 : (semSeparadores texto).length ≠ quantidadeMaximaDigitos cp)
    (h2 : (semSeparadores texto).length ≠ quantidadeMaximaDigitos cp - 2) :
    gerar_digitos_verificadores texto cp =
      Except.error (erroQuantidadeDigitos texto) := by
  unfold gerar_digitos_verificadores
  dsimp only
  rw [if_pos (Or.inl ⟨h1, h2⟩)]

/-- C5 amended-claim witness: a three-character prefix is rejected. -/
theorem gerar_wrong_length_error_witness :
    gerar_digitos_verificadores (String.toList "123") .CPF =
      Except.error (erroQuantidadeDigitos (String.toList "123")) :=
  gerar_wrong_length_error _ _ (by decide) (by decide)

/-- C10: on a full-length digit string (optionally with separators, which are
stripped), `gerar_digitos_verificadores` succeeds and returns exactly what it
returns on the string with its last two digits removed. -/
theorem gerar_full_length_ignores_check_digits (texto : List Char)
    (cp : EspeciesCadastroPessoas)
    (hdig : (semSeparadores texto).all Char.isDigit = true)
    (hlen : (semSeparadores texto).length = quantidadeMaximaDigitos cp) :
    ∃ dv, gerar_digitos_verificadores texto cp = Except.ok dv ∧
      gerar_digitos_verificadores
        ((semSeparadores texto).take ((semSeparadores texto).length - 2)) cp =
        Except.ok dv := by
  have h1 := gerar_eq_full texto cp hdig hlen
  have htall : ((semSeparadores texto).take
      ((semSeparadores texto).length - 2)).all Char.isDigit = true := by
    rw [List.all_eq_true] at hdig ⊢
    exact fun c hc => hdig c (List.take_subset _ _ hc)
  have hsem := semSeparadores_eq_self htall
  have htlen : ((semSeparadores texto).take
      ((semSeparadores texto).length - 2)).length =
      quantidadeMaximaDigitos cp - 2 := by
    rw [List.length_take, hlen]
    omega
  have h2 := gerar_eq_prefixo _ cp (by rw [hsem]; exact htall) (by rw [hsem]; exact htlen)
  rw [hsem] at h2
  exact ⟨_, h1, h2⟩

/-- C10 witness: the theorem applied to the formatted full identifier
`"00.000.000/0001-91"`. -/
theorem gerar_full_length_ignores_check_digits_witness :
    ∃ dv, gerar_digitos_verificadores (String.toList "00.000.000/0001-91") .CNPJ =
        Except.ok dv ∧
      gerar_digitos_verificadores
        ((semSeparadores (String.toList "00.000.000/0001-91")).take
          ((semSeparadores (String.toList "00.000.000/0001-91")).length - 2)) .CNPJ =
        Except.ok dv :=
  gerar_full_length_ignores_check_digits _ _ (by decide) (by decide)

/-- A filtered-by-digit list is all digits. -/
theorem filter_isDigit_all (l : List Char) :
    (l.filter Char.isDigit).all Char.isDigit = true := by
  rw [List.all_eq_true]
  exact fun c hc => List.of_mem_filter hc

/-- An all-digit list contains no alphabetic character. -/
theorem any_isAlpha_eq_false_of_all_isDigit {l : List Char}
    (h : l.all Char.isDigit = true) : l.any Char.isAlpha = false := by
  rw [List.all_eq_true] at h
  rw [Bool.eq_false_iff]
  intro ha
  rw [List.any_eq_true] at ha
  obtain ⟨c, hc, hca⟩ := ha
  rw [isAlpha_eq_false_of_isDigit (h c hc)] at hca
  exact Bool.false_ne_true hca

/-- What a bare-digit CPF regex match guarantees: 11 digits, no letters. -/
theorem cpfSem_props {s : List Char} (h : fullmatchCpfSemSeparadores s = true) :
    (s.filter Char.isDigit).length = 11 ∧ s.any Char.isAlpha = false := by
  unfold fullmatchCpfSemSeparadores at h
  rw [Bool.and_eq_true, decide_eq_true_eq] at h
  obtain ⟨hlen, hall⟩ := h
  rw [filter_isDigit_eq_self hall]
  exact ⟨hlen, any_isAlpha_eq_false_of_all_isDigit hall⟩

/-- What a bare-digit CNPJ regex match guarantees: 14 digits, no letters. -/
theorem cnpjSem_props {s : List Char} (h : fullmatchCnpjSemSeparadores s = true) :
    (s.filter Char.isDigit).length = 14 ∧ s.any Char.isAlpha = false := by
  unfold fullmatchCnpjSemSeparadores at h
  rw [Bool.and_eq_true, decide_eq_true_eq] at h
  obtain ⟨hlen, hall⟩ := h
  rw [filter_isDigit_eq_self hall]
  exact ⟨hlen, any_isAlpha_eq_false_of_all_isDigit hall⟩

/-- What a separated CPF regex match guarantees: 11 digits, no letters. -/
theorem cpfCom_props {s : List Char} (h : fullmatchCpfComSeparadores s = true) :
    (s.filter Char.isDigit).length = 11 ∧ s.any Char.isAlpha = false := by
  unfold fullmatchCpfComSeparadores at h
  split at h
  case h_2 => exact absurd h (by simp)
  case h_1 a b c p1 d e f p2 g h2 i hi j k =>
    simp only [Bool.and_eq_true, decide_eq_true_eq] at h
    obtain ⟨⟨⟨⟨⟨⟨⟨⟨⟨⟨⟨⟨⟨ha, hb⟩, hc⟩, hp1⟩, hd⟩, he⟩, hf⟩, hp2⟩, hg⟩, hh2⟩, hi2⟩, hhy⟩, hj⟩, hk⟩ := h
    subst hp1 hp2 hhy
    constructor
    · simp [List.filter_cons, ha, hb, hc, hd, he, hf, hg, hh2, hi2, hj, hk]
    · simp [List.any_cons, isAlpha_eq_false_of_isDigit, ha, hb, hc, hd, he, hf,
        hg, hh2, hi2, hj, hk]

/-- What a separated CNPJ regex match guarantees: 14 digits, no letters. -/
theorem cnpjCom_props {s : List Char} (h : fullmatchCnpjComSeparadores s = true) :
    (s.filter Char.isDigit).length = 14 ∧ s.any Char.isAlpha = false := by
  unfold fullmatchCnpjComSeparadores at h
  split at h
  case h_2 => exact absurd h (by simp)
  case h_1 a b p1 c d e p2 f g h2 br i j k l hi m n =>
    simp only [Bool.and_eq_true, decide_eq_true_eq] at h
    obtain ⟨⟨⟨⟨⟨⟨⟨⟨⟨⟨⟨⟨⟨⟨⟨⟨⟨ha, hb⟩, hp1⟩, hc⟩, hd⟩, he⟩, hp2⟩, hf⟩, hg⟩, hh2⟩, hbr⟩, hi2⟩, hj⟩, hk⟩, hl⟩, hhy⟩, hm⟩, hn⟩ := h
    subst hp1 hp2 hbr hhy
    constructor
    · simp [List.filter_cons, ha, hb, hc, hd, he, hf, hg, hh2, hi2, hj, hk, hl, hm, hn]
    · simp [List.any_cons, isAlpha_eq_false_of_isDigit, ha, hb, hc, hd, he, hf,
        hg, hh2, hi2, hj, hk, hl, hm, hn]

/-- C3 counterexample: constructing from malformed text does raise — on `"123"`
(digit count 3, not in 11 or 14) the constructor yields a `ValueError`, not a
Record carrying `is_valid = false`. -/
theorem init_malformed_raises_counterexample :
    Registro.init (String.toList "123") =
      Except.error (erroPadraoIdentificador (String.toList "123")) := rfl

/-- C3 (amended): constructing an Identifier Record from malformed text (digit
count not in 11 or 14, or text containing letters) raises a `ValueError` with
the no-pattern message instead of producing a Record; in particular no checksum
computation happens for such input. -/
theorem init_malformed_raises (texto : List Char)
    (h : ((texto.filter Char.isDigit).length ≠ 11 ∧
          (texto.filter Char.isDigit).length ≠ 14) ∨
         texto.any Char.isAlpha = true) :
    Registro.init texto = Except.error (erroPadraoIdentificador texto) := by
  have contra : ∀ n : Nat, (texto.filter Char.isDigit).length = n →
      (n = 11 ∨ n = 14) → texto.any Char.isAlpha = false → False := by
    intro n hn hcases halpha
    rcases h with ⟨h11, h14⟩ | ha
    · rcases hcases with rfl | rfl
      · exact h11 hn
      · exact h14 hn
    · rw [halpha] at ha
      exact Bool.false_ne_true ha
  have hCpfCom : fullmatchCpfComSeparadores texto = false := by
    rw [Bool.eq_false_iff]
    intro hm
    obtain ⟨hlen, halpha⟩ := cpfCom_props hm
    exact contra 11 hlen (Or.inl rfl) halpha
  have hCpfSem : fullmatchCpfSemSeparadores texto = false := by
    rw [Bool.eq_false_iff]
    intro hm
    obtain ⟨hlen, halpha⟩ := cpfSem_props hm
    exact contra 11 hlen (Or.inl rfl) halpha
  have hCnpjCom : fullmatchCnpjComSeparadores texto = false := by
    rw [Bool.eq_false_iff]
    intro hm
    obtain ⟨hlen, halpha⟩ := cnpjCom_props hm
    exact contra 14 hlen (Or.inr rfl) halpha
  have hCnpjSem : fullmatchCnpjSemSeparadores texto = false := by
    rw [Bool.eq_false_iff]
    intro hm
    obtain ⟨hlen, halpha⟩ := cnpjSem_props hm
    exact contra 14 hlen (Or.inr rfl) halpha
  unfold Registro.init
  simp [hCpfCom, hCpfSem, hCnpjCom, hCnpjSem]

/-- C3 amended-claim witness: text with letters present is rejected by raising. -/
theorem init_malformed_raises_witness :
    Registro.init (String.toList "abc") =
      Except.error (erroPadraoIdentificador (String.toList "abc")) :=
  init_malformed_raises _ (Or.inl (by constructor <;> decide))

/-- C4 counterexample: `"123.45678901"` contains no letter and exactly 11
decimal digits, yet construction raises (the separator sits at a non-canonical
position), so classification is not by digit count alone. -/
theorem init_not_by_digit_count_alone :
    (String.toList "123.45678901").countP Char.isDigit = 11 ∧
    (String.toList "123.45678901").any Char.isAlpha = false ∧
    Registro.init (String.toList "123.45678901") =
      Except.error (erroPadraoIdentificador (String.toList "123.45678901")) :=
  ⟨by decide, by decide, rfl⟩

/-- Inversion of `Registro.init`: a successful construction comes from a CPF
pattern match or, failing those, a CNPJ pattern match, and the record's fields
are exactly the ones the constructor assigns. -/
theorem init_ok_cases {texto : List Char} {r : Registro}
    (h : Registro.init texto = Except.ok r) :
    (∃ dv, (fullmatchCpfComSeparadores texto || fullmatchCpfSemSeparadores texto) = true ∧
      gerar_digitos_verificadores (texto.filter Char.isDigit) .CPF = Except.ok dv ∧
      r = ⟨.CPF, texto.filter Char.isDigit, formatoCpf (texto.filter Char.isDigit),
        dv == (texto.filter Char.isDigit).drop ((texto.filter Char.isDigit).length - 2)⟩) ∨
    (∃ dv, (fullmatchCnpjComSeparadores texto || fullmatchCnpjSemSeparadores texto) = true ∧
      gerar_digitos_verificadores (texto.filter Char.isDigit) .CNPJ = Except.ok dv ∧
      r = ⟨.CNPJ, texto.filter Char.isDigit, formatoCnpj (texto.filter Char.isDigit),
        dv == (texto.filter Char.isDigit).drop ((texto.filter Char.isDigit).length - 2)⟩) := by
  unfold Registro.init at h
  dsimp only at h
  by_cases h1 : (fullmatchCpfComSeparadores texto || fullmatchCpfSemSeparadores texto) = true
  · rw [if_pos h1] at h
    left
    cases hg : gerar_digitos_verificadores (texto.filter Char.isDigit) .CPF with
    | error e =>
      rw [hg] at h
      exact absurd h (by simp)
    | ok dv =>
      rw [hg] at h
      simp only [Except.ok.injEq] at h
      exact ⟨dv, h1, rfl, h.symm⟩
  · rw [if_neg h1] at h
    by_cases h2 : (fullmatchCnpjComSeparadores texto || fullmatchCnpjSemSeparadores texto) = true
    · rw [if_pos h2] at h
      right
      cases hg : gerar_digitos_verificadores (texto.filter Char.isDigit) .CNPJ with
      | error e =>
        rw [hg] at h
        exact absurd h (by simp)
      | ok dv =>
        rw [hg] at h
        simp only [Except.ok.injEq] at h
        exact ⟨dv, h2, rfl, h.symm⟩
    · rw [if_neg h2] at h
      exact absurd h (by simp)

/-- C4 (amended): a Record is only constructed when the input fullmatches one of
the canonical patterns; whenever construction succeeds, the digits are extracted
in order from the input and the kind corresponds exactly to the digit count:
11 digits iff NATURAL_PERSON, 14 digits iff LEGAL_ENTITY. -/
theorem init_kind_matches_digit_count (texto : List Char) (r : Registro)
    (h : Registro.init texto = Except.ok r) :
    r.digitos_identificador = texto.filter Char.isDigit ∧
    (r.cadastro_pessoas = .CPF ↔ (texto.filter Char.isDigit).length = 11) ∧
    (r.cadastro_pessoas = .CNPJ ↔ (texto.filter Char.isDigit).length = 14) := by
  rcases init_ok_cases h with ⟨dv, hm, hg, rfl⟩ | ⟨dv, hm, hg, rfl⟩
  · have hlen : (texto.filter Char.isDigit).length = 11 := by
      rw [Bool.or_eq_true] at hm
      rcases hm with hm | hm
      · exact (cpfCom_props hm).1
      · exact (cpfSem_props hm).1
    refine ⟨rfl, by simp [hlen], ?_⟩
    constructor
    · intro hc
      simp at hc
    · intro h14
      rw [hlen] at h14
      exact absurd h14 (by decide)
  · have hlen : (texto.filter Char.isDigit).length = 14 := by
      rw [Bool.or_eq_true] at hm
      rcases hm with hm | hm
      · exact (cnpjCom_props hm).1
      · exact (cnpjSem_props hm).1
    refine ⟨rfl, ?_, by simp [hlen]⟩
    constructor
    · intro hc
      simp at hc
    · intro h11
      rw [hlen] at h11
      exact absurd h11 (by decide)

/-- C4 amended-claim witness: applied to the concrete input `"07068093868"`. -/
theorem init_kind_matches_digit_count_witness :
    (Registro.mk .CPF (String.toList "07068093868")
        (String.toList "070.680.938-68") true).digitos_identificador =
      (String.toList "07068093868").filter Char.isDigit ∧
    ((Registro.mk .CPF (String.toList "07068093868")
        (String.toList "070.680.938-68") true).cadastro_pessoas = .CPF ↔
      ((String.toList "07068093868").filter Char.isDigit).length = 11) ∧
    ((Registro.mk .CPF (String.toList "07068093868")
        (String.toList "070.680.938-68") true).cadastro_pessoas = .CNPJ ↔
      ((String.toList "07068093868").filter Char.isDigit).length = 14) :=
  init_kind_matches_digit_count (String.toList "07068093868") _ rfl

/-- The four CPF display groups reassemble the digit string (11 digits). -/
theorem segmentosCpf (d : List Char) (h : d.length = 11) :
    d.take 3 ++ (d.drop 3).take 3 ++ (d.drop 6).take 3 ++ (d.drop 9).take 2 = d := by
  have h93 : (d.drop 6).drop 3 = d.drop 9 := by
    simp [List.drop_drop]
  have h63 : (d.drop 3).drop 3 = d.drop 6 := by
    simp [List.drop_drop]
  have h9 : (d.drop 9).take 2 = d.drop 9 := by
    apply List.take_of_length_le
    simp [h]
  rw [List.append_assoc, List.append_assoc, h9, ← h93, List.take_append_drop,
    ← h63, List.take_append_drop, List.take_append_drop]

/-- The five CNPJ display groups reassemble the digit string. -/
theorem segmentosCnpj (d : List Char) :
    d.take 2 ++ (d.drop 2).take 3 ++ (d.drop 5).take 3 ++ (d.drop 8).take 4 ++
      d.drop 12 = d := by
  have h128 : (d.drop 8).drop 4 = d.drop 12 := by
    simp [List.drop_drop]
  have h58 : (d.drop 5).drop 3 = d.drop 8 := by
    simp [List.drop_drop]
  have h25 : (d.drop 2).drop 3 = d.drop 5 := by
    simp [List.drop_drop]
  rw [List.append_assoc, List.append_assoc, List.append_assoc, ← h128,
    List.take_append_drop, ← h58, List.take_append_drop, ← h25,
    List.take_append_drop, List.take_append_drop]

/-- Filtering digits out of the canonical CPF display form recovers the digits. -/
theorem filter_formatoCpf {d : List Char} (hall : d.all Char.isDigit = true)
    (hlen : d.length = 11) : (formatoCpf d).filter Char.isDigit = d := by
  have hsub : ∀ l : List Char, l ⊆ d → l.filter Char.isDigit = l := fun l hl =>
    filter_isDigit_eq_self (List.all_eq_true.mpr fun c hc =>
      List.all_eq_true.mp hall c (hl hc))
  have h3 : (d.take 3).filter Char.isDigit = d.take 3 :=
    hsub _ (List.take_subset _ _)
  have h36 : ((d.drop 3).take 3).filter Char.isDigit = (d.drop 3).take 3 :=
    hsub _ (fun c hc => List.drop_subset _ _ (List.take_subset _ _ hc))
  have h69 : ((d.drop 6).take 3).filter Char.isDigit = (d.drop 6).take 3 :=
    hsub _ (fun c hc => List.drop_subset _ _ (List.take_subset _ _ hc))
  have h92 : ((d.drop 9).take 2).filter Char.isDigit = (d.drop 9).take 2 :=
    hsub _ (fun c hc => List.drop_subset _ _ (List.take_subset _ _ hc))
  have hdot : (['.'] : List Char).filter Char.isDigit = [] := rfl
  have hhyp : (['-'] : List Char).filter Char.isDigit = [] := rfl
  unfold formatoCpf
  rw [List.filter_append, List.filter_append, List.filter_append,
    List.filter_append, List.filter_append, List.filter_append,
    h3, h36, h69, h92, hdot, hhyp]
  simp only [List.append_nil]
  exact segmentosCpf d hlen

/-- Filtering digits out of the canonical CNPJ display form recovers the digits. -/
theorem filter_formatoCnpj {d : List Char} (hall : d.all Char.isDigit = true) :
    (formatoCnpj d).filter Char.isDigit = d := by
  have hsub : ∀ l : List Char, l ⊆ d → l.filter Char.isDigit = l := fun l hl =>
    filter_isDigit_eq_self (List.all_eq_true.mpr fun c hc =>
      List.all_eq_true.mp hall c (hl hc))
  have h2 : (d.take 2).filter Char.isDigit = d.take 2 :=
    hsub _ (List.take_subset _ _)
  have h25 : ((d.drop 2).take 3).filter Char.isDigit = (d.drop 2).take 3 :=
    hsub _ (fun c hc => List.drop_subset _ _ (List.take_subset _ _ hc))
  have h58 : ((d.drop 5).take 3).filter Char.isDigit = (d.drop 5).take 3 :=
    hsub _ (fun c hc => List.drop_subset _ _ (List.take_subset _ _ hc))
  have h84 : ((d.drop 8).take 4).filter Char.isDigit = (d.drop 8).take 4 :=
    hsub _ (fun c hc => List.drop_subset _ _ (List.take_subset _ _ hc))
  have h12 : (d.drop 12).filter Char.isDigit = d.drop 12 :=
    hsub _ (List.drop_subset _ _)
  have hdot : (['.'] : List Char).filter Char.isDigit = [] := rfl
  have hhyp : (['-'] : List Char).filter Char.isDigit = [] := rfl
  have hbar : (['/'] : List Char).filter Char.isDigit = [] := rfl
  unfold formatoCnpj
  rw [List.filter_append, List.filter_append, List.filter_append,
    List.filter_append, List.filter_append, List.filter_append,
    List.filter_append, List.filter_append,
    h2, h25, h58, h84, h12, hdot, hhyp, hbar]
  simp only [List.append_nil]
  exact segmentosCnpj d

/-- C9: for every successfully constructed Record, removing all non-digit
characters from the formatted identifier yields exactly its digit string. -/
theorem formatted_digits_round_trip (texto : List Char) (r : Registro)
    (h : Registro.init texto = Except.ok r) :
    r.identificador_formatado.filter Char.isDigit = r.digitos_identificador := by
  rcases init_ok_cases h with ⟨dv, hm, hg, rfl⟩ | ⟨dv, hm, hg, rfl⟩
  · have hlen : (texto.filter Char.isDigit).length = 11 := by
      rw [Bool.or_eq_true] at hm
      rcases hm with hm | hm
      · exact (cpfCom_props hm).1
      · exact (cpfSem_props hm).1
    exact filter_formatoCpf (filter_isDigit_all texto) hlen
  · exact filter_formatoCnpj (filter_isDigit_all texto)

/-- C9 witness: the theorem applied to the concrete input `"07068093868"`. -/
theorem formatted_digits_round_trip_witness :
    (Registro.mk .CPF (String.toList "07068093868")
        (String.toList "070.680.938-68") true).identificador_formatado.filter
      Char.isDigit =
    (Registro.mk .CPF (String.toList "07068093868")
        (String.toList "070.680.938-68") true).digitos_identificador :=
  formatted_digits_round_trip (String.toList "07068093868") _ rfl

/-- C7: the factory raises a `ValueError` for every establishment number
strictly below 1, instead of returning a Record. -/
theorem factory_rejects_establishment_below_one (raiz : List Char)
    (estabelecimento : Int) (h : estabelecimento < 1) :
    Registro.de_estabelecimento_com_raiz_cnpj raiz estabelecimento =
      Except.error "Nao existe estabelecimento menor que 1" := by
  unfold Registro.de_estabelecimento_com_raiz_cnpj
  rw [if_pos h]

/-- C7 witness: establishment `0` raises. -/
theorem factory_rejects_establishment_below_one_witness :
    Registro.de_estabelecimento_com_raiz_cnpj (String.toList "00000000") 0 =
      Except.error "Nao existe estabelecimento menor que 1" :=
  factory_rejects_establishment_below_one _ 0 (by decide)

/-- C8: root extraction returns the first eight digits on a LEGAL_ENTITY record,
raises a `ValueError` on a NATURAL_PERSON record, and raises exactly when the
record's kind is not LEGAL_ENTITY. -/
theorem extrair_raiz_spec (r : Registro) :
    (r.cadastro_pessoas = .CNPJ →
      r.extrair_raiz_cnpj = Except.ok (r.digitos_identificador.take 8)) ∧
    (r.cadastro_pessoas = .CPF →
      r.extrair_raiz_cnpj = Except.error erroRaizCnpj) ∧
    (r.extrair_raiz_cnpj = Except.error erroRaizCnpj ↔
      r.cadastro_pessoas ≠ .CNPJ) := by
  unfold Registro.extrair_raiz_cnpj
  cases hc : r.cadastro_pessoas <;> simp [hc]

/-- C8 witness: applied to a concrete legal-entity and a concrete
natural-person record. -/
theorem extrair_raiz_spec_witness :
    (Registro.mk .CNPJ (String.toList "00000000000191")
        (String.toList "00.000.000/0001-91") true).extrair_raiz_cnpj =
      Except.ok ((String.toList "00000000000191").take 8) ∧
    (Registro.mk .CPF (String.toList "07068093868")
        (String.toList "070.680.938-68") true).extrair_raiz_cnpj =
      Except.error erroRaizCnpj :=
  ⟨(extrair_raiz_spec _).1 rfl, (extrair_raiz_spec _).2.1 rfl⟩

/-- Every character produced by the decimal printer is a digit. -/
theorem natDecimalRev_all_isDigit (n : Nat) :
    (natDecimalRev n).all Char.isDigit = true := by
  induction n using Nat.strong_induction_on with
  | _ n ih =>
    unfold natDecimalRev
    split
    case isTrue h => simp [natToDigitChar_isDigit h]
    case isFalse h =>
      simp only [List.all_cons, Bool.and_eq_true]
      refine ⟨natToDigitChar_isDigit (by omega), ih (n / 10) ?_⟩
      exact Nat.div_lt_self (by omega) (by omega)

/-- The decimal printer of `n < 10 ^ k` emits at most `k` characters. -/
theorem natDecimalRev_length_le : ∀ k n : Nat, 0 < k → n < 10 ^ k →
    (natDecimalRev n).length ≤ k := by
  intro k
  induction k with
  | zero => intro n h; omega
  | succ k ih =>
    intro n hk hn
    unfold natDecimalRev
    split
    case isTrue h => simp
    case isFalse h =>
      simp only [List.length_cons]
      have hk0 : 0 < k := by
        rcases Nat.eq_zero_or_pos k with rfl | hp
        · norm_num at hn
          omega
        · exact hp
      have hdiv : n / 10 < 10 ^ k := by
        rw [Nat.div_lt_iff_lt_mul (by omega)]
        calc n < 10 ^ (k + 1) := hn
          _ = 10 ^ k * 10 := by ring
      have := ih (n / 10) hk0 hdiv
      omega

/-- `str(n)` consists of digit characters only. -/
theorem natDecimal_all_isDigit (n : Nat) :
    (natDecimal n).all Char.isDigit = true := by
  unfold natDecimal
  rw [List.all_eq_true]
  intro c hc
  rw [List.mem_reverse] at hc
  exact List.all_eq_true.mp (natDecimalRev_all_isDigit n) c hc

/-- `str(n)` has at most four characters for `n ≤ 9999`. -/
theorem natDecimal_length_le_four {n : Nat} (h : n ≤ 9999) :
    (natDecimal n).length ≤ 4 := by
  unfold natDecimal
  rw [List.length_reverse]
  exact natDecimalRev_length_le 4 n (by omega) (by norm_num; omega)

/-- `str(i)` of a positive Python int is the plain decimal rendering. -/
theorem intStr_of_pos {e : Int} (h : 1 ≤ e) : intStr e = natDecimal e.toNat := by
  unfold intStr
  rw [if_neg (by omega)]

/-- Zero-filling to width four yields exactly four characters. -/
theorem zfill4_length {l : List Char} (h : l.length ≤ 4) :
    (zfill4 l).length = 4 := by
  simp only [zfill4, List.length_append, List.length_replicate]
  omega

/-- Zero-filling preserves digit-ness. -/
theorem zfill4_all_isDigit {l : List Char} (h : l.all Char.isDigit = true) :
    (zfill4 l).all Char.isDigit = true := by
  rw [zfill4, List.all_eq_true]
  intro c hc
  rcases List.mem_append.mp hc with hc | hc
  · rw [List.eq_of_mem_replicate hc]
    rfl
  · exact List.all_eq_true.mp h c hc

/-- Closed form of the CNPJ core: the two pass digits, in order. -/
theorem gerarNucleo_cnpj (idv : List Char) :
    gerarNucleo idv .CNPJ = [natToDigitChar (digitoCnpj idv),
      natToDigitChar (digitoCnpj (idv ++ [natToDigitChar (digitoCnpj idv)]))] := by
  unfold gerarNucleo
  dsimp only
  rw [loopCnpj_eq, drop_last_two]

/-- The CNPJ core output has exactly two characters. -/
theorem gerarNucleo_cnpj_length (idv : List Char) :
    (gerarNucleo idv .CNPJ).length = 2 := by
  rw [gerarNucleo_cnpj]
  rfl

/-- The CNPJ core output consists of digit characters. -/
theorem gerarNucleo_cnpj_all_isDigit (idv : List Char) :
    (gerarNucleo idv .CNPJ).all Char.isDigit = true := by
  rw [gerarNucleo_cnpj]
  simp [natToDigitChar_isDigit (digitoCnpj_lt_ten _)]

/-- Constructing from a 14-digit bare string classifies as CNPJ, regenerates
the check digits from the 12-digit prefix, and compares with the last two. -/
theorem init_of_fourteen_digits {s : List Char} (hsall : s.all Char.isDigit = true)
    (hslen : s.length = 14) :
    Registro.init s = Except.ok ⟨.CNPJ, s, formatoCnpj s,
      gerarNucleo (s.take 12) .CNPJ == s.drop 12⟩ := by
  have hfilter : s.filter Char.isDigit = s := filter_isDigit_eq_self hsall
  have hCpfCom : fullmatchCpfComSeparadores s = false := by
    rw [Bool.eq_false_iff]
    intro hm
    have h11 := (cpfCom_props hm).1
    rw [hfilter, hslen] at h11
    exact absurd h11 (by decide)
  have hCpfSem : fullmatchCpfSemSeparadores s = false := by
    simp [fullmatchCpfSemSeparadores, hslen]
  have hCnpjSem : fullmatchCnpjSemSeparadores s = true := by
    simp [fullmatchCnpjSemSeparadores, hslen, hsall]
  have hsem : semSeparadores s = s := semSeparadores_eq_self hsall
  have hg : gerar_digitos_verificadores s .CNPJ =
      Except.ok (gerarNucleo (s.take 12) .CNPJ) := by
    have := gerar_eq_full s .CNPJ (by rw [hsem]; exact hsall)
      (by rw [hsem, hslen]; rfl)
    rw [hsem, hslen] at this
    exact this
  unfold Registro.init
  dsimp only
  rw [hCpfCom, hCpfSem, hCnpjSem]
  simp only [Bool.or_false, Bool.or_true, Bool.false_or, if_false, if_true,
    Bool.false_eq_true, ite_false, ite_true]
  rw [hfilter, hg, hslen]

/-- C6: for every 8-digit root and establishment 1..9999, the factory returns a
legal-entity Record whose digit string is the root, then the establishment
zero-padded to four digits, then the check digits generated for that 12-digit
prefix, and that Record is valid. -/
theorem factory_builds_valid_cnpj (raiz : List Char) (e : Int)
    (hrlen : raiz.length = 8) (hrall : raiz.all Char.isDigit = true)
    (he1 : 1 ≤ e) (he2 : e ≤ 9999) :
    ∃ dv, gerar_digitos_verificadores (raiz ++ zfill4 (intStr e)) .CNPJ =
        Except.ok dv ∧
      Registro.de_estabelecimento_com_raiz_cnpj raiz e =
        Except.ok ⟨.CNPJ, raiz ++ zfill4 (intStr e) ++ dv,
          formatoCnpj (raiz ++ zfill4 (intStr e) ++ dv), true⟩ := by
  have hzlen : (zfill4 (intStr e)).length = 4 := by
    apply zfill4_length
    rw [intStr_of_pos he1]
    apply natDecimal_length_le_four
    omega
  have hzall : (zfill4 (intStr e)).all Char.isDigit = true := by
    apply zfill4_all_isDigit
    rw [intStr_of_pos he1]
    exact natDecimal_all_isDigit _
  have hplen : (raiz ++ zfill4 (intStr e)).length = 12 := by
    rw [List.length_append, hrlen, hzlen]
  have hpall : (raiz ++ zfill4 (intStr e)).all Char.isDigit = true := by
    rw [List.all_append, hrall, hzall]
    rfl
  have hsem : semSeparadores (raiz ++ zfill4 (intStr e)) = raiz ++ zfill4 (intStr e) :=
    semSeparadores_eq_self hpall
  have hg : gerar_digitos_verificadores (raiz ++ zfill4 (intStr e)) .CNPJ =
      Except.ok (gerarNucleo (raiz ++ zfill4 (intStr e)) .CNPJ) := by
    have h := gerar_eq_prefixo (raiz ++ zfill4 (intStr e)) .CNPJ
      (by rw [hsem]; exact hpall) (by rw [hsem, hplen]; rfl)
    rw [hsem] at h
    exact h
  have hdvlen : (gerarNucleo (raiz ++ zfill4 (intStr e)) .CNPJ).length = 2 :=
    gerarNucleo_cnpj_length _
  have hdvall := gerarNucleo_cnpj_all_isDigit (raiz ++ zfill4 (intStr e))
  have hslen : (raiz ++ zfill4 (intStr e) ++
      gerarNucleo (raiz ++ zfill4 (intStr e)) .CNPJ).length = 14 := by
    rw [List.length_append, hplen, hdvlen]
  have hsall : (raiz ++ zfill4 (intStr e) ++
      gerarNucleo (raiz ++ zfill4 (intStr e)) .CNPJ).all Char.isDigit = true := by
    rw [List.all_append, hpall, hdvall]
    rfl
  have htake : (raiz ++ zfill4 (intStr e) ++
      gerarNucleo (raiz ++ zfill4 (intStr e)) .CNPJ).take 12 =
      raiz ++ zfill4 (intStr e) := by
    rw [← hplen]
    exact List.take_left _ _
  have hdrop : (raiz ++ zfill4 (intStr e) ++
      gerarNucleo (raiz ++ zfill4 (intStr e)) .CNPJ).drop 12 =
      gerarNucleo (raiz ++ zfill4 (intStr e)) .CNPJ := by
    rw [← hplen]
    exact List.drop_left _ _
  have hinit := init_of_fourteen_digits hsall hslen
  rw [htake, hdrop, beq_self_eq_true] at hinit
  refine ⟨gerarNucleo (raiz ++ zfill4 (intStr e)) .CNPJ, hg, ?_⟩
  unfold Registro.de_estabelecimento_com_raiz_cnpj
  rw [if_neg (by omega)]
  dsimp only
  rw [hg]
  exact hinit

/-- C6 witness: the theorem applied to root `"00000000"`, establishment 1. -/
theorem factory_builds_valid_cnpj_witness :
    ∃ dv, gerar_digitos_verificadores
        (String.toList "00000000" ++ zfill4 (intStr 1)) .CNPJ = Except.ok dv ∧
      Registro.de_estabelecimento_com_raiz_cnpj (String.toList "00000000") 1 =
        Except.ok ⟨.CNPJ, String.toList "00000000" ++ zfill4 (intStr 1) ++ dv,
          formatoCnpj (String.toList "00000000" ++ zfill4 (intStr 1) ++ dv), true⟩ :=
  factory_builds_valid_cnpj _ 1 (by decide) (by decide) (by decide) (by decide)
